import Mathlib

/-!
Verification development for the Seguros Bolívar claim-status scraping backend.

The Python source is shallowly embedded: pure string manipulation is
translated to Lean functions over `String`/`List Char`; the HTML/XML
parsing libraries (BeautifulSoup, ElementTree) are modelled as oracle
parameters producing structured values; network effects are modelled by
oracle parameters plus an explicit action trace.
-/

namespace Scrap

/-! ### Python string primitives -/

/-- ASCII whitespace as recognised by Python's `str.strip` / `\s`. -/
def isPyWs (c : Char) : Bool :=
  c = ' ' || c = '\t' || c = '\n' || c = '\r' || c = '\x0b' || c = '\x0c'

/-- Python `str.strip()` on the character list. -/
def pyStripList (l : List Char) : List Char :=
  ((l.dropWhile isPyWs).reverse.dropWhile isPyWs).reverse

/-- Python `str.strip()`. -/
def pyStrip (s : String) : String := ⟨pyStripList s.data⟩

/-- Python `str.lower()` (ASCII; all inputs in this code base are ASCII). -/
def pyLower (s : String) : String := ⟨s.data.map Char.toLower⟩

/-- Python `str.upper()` (ASCII). -/
def pyUpper (s : String) : String := ⟨s.data.map Char.toUpper⟩

/-- Python `needle in hay` for strings: contiguous substring containment. -/
def pyIn (needle hay : String) : Bool := decide (needle.data <:+: hay.data)

/-- Python `s.endswith(pat)`. -/
def pyEndsWith (pat s : String) : Bool := decide (pat.data <:+ s.data)

/-- Python `s.startswith(pat)`. -/
def pyStartsWith (pat s : String) : Bool := decide (pat.data <+: s.data)

/-- Collapse of a run of blanks used to model `re.sub(r"\s+", " ", text)`:
second pass, squeezing duplicate spaces. -/
def squeezeSpaces : List Char → List Char
  | [] => []
  | [c] => [c]
  | a :: b :: rest =>
    if a = ' ' && b = ' ' then squeezeSpaces (b :: rest)
    else a :: squeezeSpaces (b :: rest)

/-- Python `re.sub(r"\s+", " ", s)`: every maximal whitespace run becomes one space. -/
def collapseWs (s : String) : String :=
  ⟨squeezeSpaces (s.data.map (fun c => if isPyWs c then ' ' else c))⟩

/-! ### Status normalizer (`SegurosBolivarSession._normalize_estado`) -/

/-- Embedding of `_normalize_estado` from
`applications/scrapers/services/seguros_bolivar_session.py`.
The source binds `text = (raw or "").strip()` and `lower = text.lower()`;
those bindings are inlined here. -/
def normalize_estado (raw : String) : String :=
  if pyStrip raw = "" then "NO ENCONTRADO"
  else if pyLower (pyStrip raw) = "nuevo" then "SIN DESISTIR"
  else if pyIn "desist" (pyLower (pyStrip raw)) then "DESISTIDO"
  else if pyIn "report" (pyLower (pyStrip raw)) then "REPORTADO"
  else if pyIn "sin desist" (pyLower (pyStrip raw))
      || pyIn "no ha pagado" (pyLower (pyStrip raw))
      || pyIn "sin pagar" (pyLower (pyStrip raw)) then "SIN DESISTIR"
  else pyUpper (pyStrip (collapseWs (pyStrip raw)))

example : normalize_estado "Nuevo" = "SIN DESISTIR" := by decide
example : normalize_estado "Desistido por el cliente" = "DESISTIDO" := by decide
example : normalize_estado "Reportado a la aseguradora" = "REPORTADO" := by decide
example : normalize_estado "" = "NO ENCONTRADO" := by decide
example : normalize_estado "Algo  Raro" = "ALGO RARO" := by decide
example : normalize_estado "Sin desistir" = "DESISTIDO" := by decide
example : normalize_estado "El cliente no ha pagado" = "SIN DESISTIR" := by decide

/-! ### Radicado input normalization (`views._normalize_radicados`) -/

/-- Split of a character list on a separator character, Python `str.split(sep)`
semantics: empty pieces are kept, and the result is never the empty list. -/
def splitOnChar (c : Char) : List Char → List (List Char)
  | [] => [[]]
  | x :: xs =>
    match splitOnChar c xs with
    | [] => [[]]
    | y :: ys => if x = c then [] :: y :: ys else (x :: y) :: ys

/-- Input shapes accepted by `_normalize_radicados` (`value: Any`): `None`, a
string, a list of strings, or any other value via its `str()` rendering. -/
inductive RadicadosInput where
  | null : RadicadosInput
  | str (s : String) : RadicadosInput
  | list (l : List String) : RadicadosInput
  | other (rendered : String) : RadicadosInput

/-- Embedding of the string branch of `_normalize_radicados`:
`value.replace("\r","\n").replace(",","\n").replace(";","\n").split("\n")`. -/
def splitSeps (s : String) : List String :=
  (splitOnChar '\n'
      (s.data.map (fun c => if c = '\r' || c = ',' || c = ';' then '\n' else c))).map
    (fun l => (⟨l⟩ : String))

/-- The trimmed, non-empty identifier list built by `_normalize_radicados`
before de-duplication (the `radicados` local of the source). -/
def rawParts : RadicadosInput → List String
  | RadicadosInput.null => []
  | RadicadosInput.str s => ((splitSeps s).map pyStrip).filter (· ≠ "")
  | RadicadosInput.list l => (l.map pyStrip).filter (· ≠ "")
  | RadicadosInput.other s => if pyStrip s ≠ "" then [pyStrip s] else []

/-- The de-duplication loop of `_normalize_radicados`: a `seen` set and an
output accumulator, keeping the first occurrence of each identifier. -/
def dedupeSeen (seen : List String) : List String → List String
  | [] => []
  | r :: rs =>
    if r ∈ seen then dedupeSeen seen rs
    else r :: dedupeSeen (r :: seen) rs

/-- Embedding of `_normalize_radicados` from `applications/scrapers/views.py`. -/
def normalize_radicados (v : RadicadosInput) : List String :=
  dedupeSeen [] (rawParts v)

/-- Modelled from the claim wording "one result per distinct non-empty
trimmed identifier, in first-seen order": the canonical first-occurrence
de-duplication, which keeps each element's first occurrence in place and
drops every later duplicate. Specification side of the refinement proof for
the seen-set loop (a last-occurrence de-duplication such as `List.dedup`
differs from it on `["a", "b", "a"]`). -/
def dedupFirstSeen : List String → List String
  | [] => []
  | x :: xs => x :: dedupFirstSeen (xs.filter (fun y => y ≠ x))
termination_by l => l.length
decreasing_by
  simp only [List.length_cons]
  exact Nat.lt_succ_of_le (List.length_filter_le _ _)

example : dedupFirstSeen ["a", "b", "a"] = ["a", "b"] := by
  simp [dedupFirstSeen]

example : normalize_radicados (RadicadosInput.str "a, b;b\n a \r\nc") = ["a", "b", "c"] := by
  decide

/-! ### Session state and authentication (`SegurosBolivarSession`) -/

/-- Network side effects performed by the session, recorded as a trace. A
`httpPost` records the payload assignments it submits. -/
inductive Action where
  | authLogin : Action
  | httpGet : Action
  | httpPost (payload : List (String × String)) : Action
deriving DecidableEq

/-- The mutable fields of `SegurosBolivarSession` relevant to the verified
operations (cookie jar contents are held inside the HTTP client and are not
read by any embedded operation). -/
structure SessionState where
  cookie_header : String
  use_server_auth : Bool
  user_id : Option String
  password : Option String
  view_state_value : Option String
  is_authenticated : Bool
deriving DecidableEq

/-- Python truthiness test `not x` for an optional string (`None` or `""`). -/
def strFalsy : Option String → Bool
  | none => true
  | some s => s = ""

/-- Embedding of `SegurosBolivarSession.ensure_authenticated`. The
credential-login network sequence (`authenticate`) is external I/O and is
modelled by the oracle `authOutcome`: `Except.ok vs` means the login sequence
succeeded and extracted `vs` as the initial ViewState, `Except.error` means it
raised. Returns the updated state (or the raised error) plus the performed
network actions. -/
def ensure_authenticated (authOutcome : Except String (Option String))
    (st : SessionState) : Except String SessionState × List Action :=
  if st.is_authenticated then (Except.ok st, [])
  else if st.cookie_header ≠ "" then
    (Except.ok { st with is_authenticated := true }, [])
  else if !st.use_server_auth then
    (Except.error "No hay cookie de sesión. Envía 'cookie' o activa 'use_server_auth'.", [])
  else if strFalsy st.user_id || strFalsy st.password then
    (Except.error "Faltan variables de entorno LIBERTADOR_USER/LIBERTADOR_PASS para autenticar.",
      [])
  else
    match authOutcome with
    | Except.ok vs =>
      (Except.ok { st with is_authenticated := true, view_state_value := vs },
        [Action.authLogin])
    | Except.error e => (Except.error e, [Action.authLogin])

/-! ### Batch orchestration (`views.bolivar_radicados`) -/

/-- Embedding of the `BolivarResult` dataclass. -/
structure BolivarResult where
  radicado : String
  ok : Bool
  estado_raw : Option String
  estado_normalizado : Option String
  asegurado : Option String
  consulted_at : String
  error : Option String
deriving DecidableEq

/-- One call to `session.get_info_for_radicado`, as seen by the batch loop: it
may mutate the session state and either returns `(estado_raw,
estado_normalizado, asegurado)` or raises an exception with a message. -/
def Query : Type :=
  SessionState → String → SessionState × Except String (String × String × Option String)

/-- The result record appended by the `except` branches of the batch loop
(both the `NotImplementedError` branch and the generic `Exception` branch
build exactly this record). -/
def errorResult (r ts e : String) : BolivarResult :=
  { radicado := r, ok := false, estado_raw := none,
    estado_normalizado := some "NO ENCONTRADO", asegurado := none,
    consulted_at := ts, error := some e }

/-- The result record appended by the `try` branch of the batch loop. -/
def okResult (r ts : String) (t : String × String × Option String) : BolivarResult :=
  { radicado := r, ok := true, estado_raw := some t.1,
    estado_normalizado := some t.2.1, asegurado := t.2.2,
    consulted_at := ts, error := none }

/-- Embedding of the per-radicado loop of `views.bolivar_radicados`: the
session state is threaded through the queries (also out of a raising query,
since the Python session object may have been mutated before the raise). `ts`
stands in for the per-iteration `datetime.now()` timestamp. -/
def runBatch (query : Query) (ts : String) :
    SessionState → List String → SessionState × List BolivarResult
  | st, [] => (st, [])
  | st, r :: rs =>
    match query st r with
    | (st1, Except.ok t) =>
      ((runBatch query ts st1 rs).1, okResult r ts t :: (runBatch query ts st1 rs).2)
    | (st1, Except.error e) =>
      ((runBatch query ts st1 rs).1, errorResult r ts e :: (runBatch query ts st1 rs).2)

/-- Everything after the first `:` of a string, Python `s.split(":", 1)[1]`. -/
def afterFirstColon (l : List Char) : List Char := (l.dropWhile (· ≠ ':')).drop 1

/-- The `Cookie:`-label removal step of `_normalize_cookie_header`. -/
def cookieBody (raw : String) : String :=
  if pyStartsWith "cookie:" (pyLower (pyStrip raw)) then
    pyStrip ⟨afterFirstColon (pyStrip raw).data⟩
  else pyStrip raw

/-- Embedding of `views._normalize_cookie_header`. -/
def normalize_cookie_header (raw : String) : String :=
  if pyStrip raw = "" then ""
  else
    String.intercalate "; "
      (((splitOnChar ';'
            (((cookieBody raw).data.filter (· ≠ '\r')).map
              (fun c => if c = '\n' then ';' else c))).map
          (fun l => pyStrip (⟨l⟩ : String))).filter (· ≠ ""))

example : normalize_cookie_header "Cookie: a=b\nc=d" = "a=b; c=d" := by decide
example : normalize_cookie_header "  " = "" := by decide
example : normalize_cookie_header ";;;" = "" := by decide

/-- Responses of the batch endpoint: an HTTP 400 rejection with a detail
message (carrying no results), or an HTTP 200 payload. -/
inductive ApiResponse where
  | badRequest (detail : String) : ApiResponse
  | ok (fetched_at : String) (count : Nat) (results : List BolivarResult) : ApiResponse
deriving DecidableEq

/-- Embedding of the `views.bolivar_radicados` endpoint. `mkSession` models
the `SegurosBolivarSession(...)` constructor call (its cookie parsing may
raise, which the endpoint converts to a 400); `query` models
`session.get_info_for_radicado`. -/
def bolivar_radicados (mkSession : Except String SessionState) (query : Query)
    (fetched_at ts : String) (cookieRaw : String) (radsIn : RadicadosInput)
    (useServerAuth : Bool) : ApiResponse :=
  if normalize_cookie_header cookieRaw = "" && !useServerAuth then
    ApiResponse.badRequest
      "Falta 'cookie' o 'use_server_auth=true'. Este sistema solo consulta; no ejecuta acciones críticas."
  else if normalize_radicados radsIn = [] then
    ApiResponse.badRequest "Falta 'radicados' (lista o texto con radicados)."
  else
    match mkSession with
    | Except.error e => ApiResponse.badRequest ("No se pudo inicializar sesión: " ++ e)
    | Except.ok st =>
      ApiResponse.ok fetched_at (runBatch query ts st (normalize_radicados radsIn)).2.length
        (runBatch query ts st (normalize_radicados radsIn)).2

/-! ### Form model and form resolution (`SegurosBolivarSession._find_search_form`)

BeautifulSoup's parse tree is modelled at the level `_find_search_form` and
the payload builder actually consume it: a document is a list of `<form>`
elements in document order, each carrying its attributes and the relevant
descendant elements (inputs, textareas, buttons) in document order. -/

/-- An `<input>`, `<textarea>` or `<button>` descendant of a form. `none`
attribute values model absent attributes (`tag.get(...) is None`); `text` is
BeautifulSoup's `get_text(" ", strip=True)` rendering. -/
structure FormElem where
  tag : String
  nameAttr : Option String
  idAttr : Option String
  typeAttr : Option String
  valueAttr : Option String
  text : String
deriving DecidableEq

/-- A `<form>` element with its attributes and relevant descendants. -/
structure Form where
  idAttr : Option String
  nameAttr : Option String
  action : Option String
  elems : List FormElem
deriving DecidableEq

/-- The `busqueda_input` lambda of `_find_search_form`: an input or textarea
whose name or id (lower-cased) ends with `"busqueda"`. -/
def isBusquedaField (e : FormElem) : Bool :=
  (e.tag = "input" || e.tag = "textarea") &&
    (pyEndsWith "busqueda" (pyLower (e.nameAttr.getD "")) ||
      pyEndsWith "busqueda" (pyLower (e.idAttr.getD "")))

/-- A form containing a search field (membership in `busqueda_forms`). -/
def hasSearchField (f : Form) : Bool := f.elems.any isBusquedaField

/-- The `FormIndex` test: stripped id or name exactly `"FormIndex"`. -/
def isFormIndexForm (f : Form) : Bool :=
  pyStrip (f.idAttr.getD "") = "FormIndex" || pyStrip (f.nameAttr.getD "") = "FormIndex"

/-- The same-page-postback test: lower-cased action ends with
`"/pages/index.xhtml"` or `"index.xhtml"`. -/
def actionEndsIndex (f : Form) : Bool :=
  pyEndsWith "/pages/index.xhtml" (pyLower (f.action.getD "")) ||
    pyEndsWith "index.xhtml" (pyLower (f.action.getD ""))

/-- The ViewState-fallback test: `form.find("input", {"name":
"javax.faces.ViewState"})`. -/
def hasViewStateInput (f : Form) : Bool :=
  f.elems.any (fun e => e.tag = "input" && e.nameAttr = some "javax.faces.ViewState")

/-- Embedding of `_find_search_form` from
`applications/scrapers/services/seguros_bolivar_session.py`. The source's
`for`-loops returning the first hit are rendered as `List.find?`. -/
def find_search_form (forms : List Form) : Option Form :=
  if forms = [] then none
  else if forms.filter hasSearchField ≠ [] then
    match (forms.filter hasSearchField).find? isFormIndexForm with
    | some f => some f
    | none =>
      match (forms.filter hasSearchField).find? actionEndsIndex with
      | some f => some f
      | none => (forms.filter hasSearchField).head?
  else
    match forms.find? hasViewStateInput with
    | some f => some f
    | none => forms.head?

/-- Modelled from the claim wording: the six-step priority chain of the form
resolver, written as successive refinements of the candidate list (collect
search-field forms; prefer exact `FormIndex`; else landing-page action; else
first search-field form; else first form with a state-token input; else the
first form). Used as the specification side of the refinement proof. -/
def findSearchFormSpec (forms : List Form) : Option Form :=
  if forms.filter hasSearchField ≠ [] then
    if (forms.filter hasSearchField).filter isFormIndexForm ≠ [] then
      ((forms.filter hasSearchField).filter isFormIndexForm).head?
    else if (forms.filter hasSearchField).filter actionEndsIndex ≠ [] then
      ((forms.filter hasSearchField).filter actionEndsIndex).head?
    else (forms.filter hasSearchField).head?
  else if forms.filter hasViewStateInput ≠ [] then
    (forms.filter hasViewStateInput).head?
  else forms.head?

/-! ### Search payload construction (inside `get_info_for_radicado`) -/

/-- The hidden-input replay loop of `get_info_for_radicado`: every hidden
input with a truthy name, except `javax.faces.ViewState`, contributes
`payload[name] = value`. -/
def hiddenAssigns (form : Form) : List (String × String) :=
  (form.elems.filter (fun e =>
      e.tag = "input" && !strFalsy e.nameAttr &&
        e.nameAttr.getD "" ≠ "javax.faces.ViewState" &&
        pyLower (e.typeAttr.getD "") = "hidden")).map
    (fun e => (e.nameAttr.getD "", e.valueAttr.getD ""))

/-- The search-field-name determination loop: first input/textarea whose
`"{name} {id}"` haystack contains `"busqueda"`, taking `name or id`, with
default `"busqueda"`. -/
def busquedaName (form : Form) : String :=
  match (form.elems.filter (fun e => e.tag = "input" || e.tag = "textarea")).find?
      (fun e => pyIn "busqueda" (pyLower ((e.nameAttr.getD "") ++ " " ++ (e.idAttr.getD "")))) with
  | some e =>
    if !strFalsy e.nameAttr then e.nameAttr.getD ""
    else if !strFalsy e.idAttr then e.idAttr.getD ""
    else "busqueda"
  | none => "busqueda"

/-- The `candidates` list of submit controls: buttons, and inputs whose type
is empty, `submit` or `image`, keeping `(name or id, value or text)` for those
with a truthy `name or id`. -/
def submitCandidates (form : Form) : List (String × String) :=
  ((form.elems.filter (fun e => e.tag = "button" || e.tag = "input")).filter
      (fun e =>
        (e.tag ≠ "input" ||
            (pyLower (e.typeAttr.getD "") = "" || pyLower (e.typeAttr.getD "") = "submit" ||
              pyLower (e.typeAttr.getD "") = "image")) &&
          !strFalsy (if !strFalsy e.nameAttr then e.nameAttr else e.idAttr))).map
    (fun e =>
      ((if !strFalsy e.nameAttr then e.nameAttr.getD "" else e.idAttr.getD ""),
        (if !strFalsy e.valueAttr then e.valueAttr.getD "" else e.text)))

/-- The keyword test on a candidate: `"{name} {text_value}"` lower-cased
contains one of `buscar`, `busca`, `consulta`, `consult`, `search`. -/
def submitKeywordHit (p : String × String) : Bool :=
  pyIn "buscar" (pyLower (p.1 ++ " " ++ p.2)) ||
    pyIn "busca" (pyLower (p.1 ++ " " ++ p.2)) ||
    pyIn "consulta" (pyLower (p.1 ++ " " ++ p.2)) ||
    pyIn "consult" (pyLower (p.1 ++ " " ++ p.2)) ||
    pyIn "search" (pyLower (p.1 ++ " " ++ p.2))

/-- Word character for the regex boundary `\b` (ASCII `[A-Za-z0-9_]`). -/
def wordChar (c : Char) : Bool := c.isAlpha || c.isDigit || c = '_'

/-- Python `re.fullmatch(r"j_idt\d+", s)`. -/
def jIdtFull (s : String) : Bool :=
  pyStartsWith "j_idt" s && (s.data.drop 5) ≠ [] && (s.data.drop 5).all Char.isDigit

/-- An occurrence of `\bj_idt\d+\b` starting at the head of `l`, where `prev`
is the character immediately before `l` (if any). -/
def jIdtAt (prev : Option Char) (l : List Char) : Bool :=
  (match prev with
   | none => true
   | some c => !wordChar c) &&
    decide ("j_idt".data <+: l) &&
    (l.drop 5).takeWhile Char.isDigit ≠ [] &&
    (match (l.drop 5).dropWhile Char.isDigit with
     | [] => true
     | c :: _ => !wordChar c)

/-- Python `re.search(r"\bj_idt\d+\b", s)` scanned over all start positions. -/
def jIdtSearch (prev : Option Char) : List Char → Bool
  | [] => false
  | c :: rest => jIdtAt prev (c :: rest) || jIdtSearch (some c) rest

/-- The framework-generated-control test of the submit-selection code. -/
def jIdtMatch (s : String) : Bool := jIdtFull s || jIdtSearch none s.data

/-- The submit-control selection chain of `get_info_for_radicado`: keyword
hit, else a `j_idt`-style name, else the sole candidate if exactly one. -/
def submitName (form : Form) : Option String :=
  match (submitCandidates form).find? submitKeywordHit with
  | some p => some p.1
  | none =>
    match (submitCandidates form).find? (fun p => jIdtMatch p.1) with
    | some p => some p.1
    | none =>
      match submitCandidates form with
      | [p] => some p.1
      | _ => none

/-- The payload dict built by `get_info_for_radicado`, as the ordered list of
assignments performed on it: hidden inputs, then the search field, then
`javax.faces.ViewState := tracked value`, then (if chosen) the submit
control mapped to its own name. -/
def buildPayload (form : Form) (solicitud viewState : String) : List (String × String) :=
  hiddenAssigns form ++
    [(busquedaName form, solicitud), ("javax.faces.ViewState", viewState)] ++
    (match submitName form with
     | some n => [(n, n)]
     | none => [])

/-- Final value of a key in the payload dict: the last assignment wins. -/
def payloadGet (k : String) (assigns : List (String × String)) : Option String :=
  (assigns.reverse.find? (fun p => p.1 = k)).map (fun p => p.2)

/-! ### ViewState tracker and partial-response unwrapper

The XML library (`xml.etree.ElementTree`) and BeautifulSoup are external
code; their parses are supplied by oracles. `xmlParse` returns the elements
of `root.iter()` in document order, or `none` when `ET.fromstring` raises. -/

/-- An element yielded by `root.iter()`: its tag, its `id` attribute
(`attrib.get("id") or ""`), and `"".join(elem.itertext())`. -/
structure XElem where
  tag : String
  idAttr : String
  text : String
deriving DecidableEq

/-- Parsing oracles standing for the external markup libraries. -/
structure ParseOracles where
  xmlParse : String → Option (List XElem)
  htmlViewState : String → Option String
  unescape : String → String
  parseForms : String → List Form
  extractInfo : String → Option String × Option String

/-- The partial-response branch of `_refresh_view_state_from_html`: the first
`update` element whose id names the ViewState and whose stripped text is
non-empty; `none` when the marker is absent, the XML parse raises, or no such
element exists (in all of which the source falls through to the HTML parse). -/
def viewStateFromXml (o : ParseOracles) (htmlText : String) : Option String :=
  if pyIn "<partial-response" (pyLower htmlText) then
    match o.xmlParse htmlText with
    | some elems =>
      match elems.find? (fun e =>
          pyEndsWith "update" (pyLower e.tag) &&
            pyIn "javax.faces.viewstate" (pyLower e.idAttr) &&
            pyStrip e.text ≠ "") with
      | some e => some (pyStrip e.text)
      | none => none
    | none => none
  else none

/-- Embedding of `_refresh_view_state_from_html`: returns the new value of
`self.view_state_value` given its previous value `old`. The Python `try ...
except: pass` around the XML parse is the `none` case of `xmlParse`; the
function is total, so it never raises. -/
def refresh_view_state (o : ParseOracles) (old : Option String) (htmlText : String) :
    Option String :=
  match viewStateFromXml o htmlText with
  | some v => some v
  | none =>
    match o.htmlViewState htmlText with
    | some v => if v ≠ "" then some v else old
    | none => old

/-- Embedding of `_unwrap_jsf_partial_response`. -/
def unwrap_jsf_partial_response (o : ParseOracles) (t : String) : String :=
  if !pyIn "<partial-response" (pyLower t) then t
  else
    match o.xmlParse t with
    | none => t
    | some elems =>
      match (elems.filter (fun e =>
            pyEndsWith "update" (pyLower e.tag) && pyStrip e.text ≠ "")).map
          (fun e => o.unescape (pyStrip e.text)) with
      | [] => t
      | chunks => String.intercalate "\n" chunks

/-! ### Per-claim query (`SegurosBolivarSession.get_info_for_radicado`) -/

/-- Network oracles for one `get_info_for_radicado` call: the outcome of the
credential login (if performed), of the landing-page GET, and of the search
POST. An `Except.error` is a raised `requests` exception or a
`raise_for_status` failure. -/
structure NetOracles where
  authOutcome : Except String (Option String)
  indexResp : Except String String
  postResp : Except String String

/-- Embedding of `get_info_for_radicado`. Returns the session state after the
call, the trace of network actions performed, and either the
`(estado_raw, estado_normalizado, asegurado)` triple or the raised error.
The POST target URL (`urljoin`) does not influence any verified claim and is
not modelled; the submitted payload is recorded in the `httpPost` action. -/
def get_info_for_radicado (po : ParseOracles) (no : NetOracles) (st : SessionState)
    (radicado : String) :
    SessionState × List Action × Except String (String × String × Option String) :=
  if pyStrip radicado = "" then
    (st, [], Except.ok ("NO ENCONTRADO", "NO ENCONTRADO", none))
  else
    match ensure_authenticated no.authOutcome st with
    | (Except.error e, acts) => (st, acts, Except.error e)
    | (Except.ok st1, acts) =>
      match no.indexResp with
      | Except.error e => (st1, acts ++ [Action.httpGet], Except.error e)
      | Except.ok indexHtml =>
        let st2 : SessionState :=
          { st1 with view_state_value := refresh_view_state po st1.view_state_value indexHtml }
        if strFalsy st2.view_state_value then
          (st2, acts ++ [Action.httpGet],
            Except.error "No se encontró javax.faces.ViewState en index.xhtml")
        else
          match find_search_form (po.parseForms indexHtml) with
          | none =>
            (st2, acts ++ [Action.httpGet],
              Except.error "No se encontró formulario de consulta en index.xhtml")
          | some form =>
            match no.postResp with
            | Except.error e =>
              (st2,
                acts ++ [Action.httpGet,
                  Action.httpPost
                    (buildPayload form (pyStrip radicado) (st2.view_state_value.getD ""))],
                Except.error e)
            | Except.ok respText =>
              let st3 : SessionState :=
                { st2 with
                  view_state_value := refresh_view_state po st2.view_state_value respText }
              let acts3 : List Action :=
                acts ++ [Action.httpGet,
                  Action.httpPost
                    (buildPayload form (pyStrip radicado) (st2.view_state_value.getD ""))]
              match po.extractInfo (unwrap_jsf_partial_response po respText) with
              | (raw?, aseg) =>
                if raw?.getD "" = "" then
                  (st3, acts3, Except.ok ("NO ENCONTRADO", "NO ENCONTRADO", aseg))
                else
                  (st3, acts3,
                    Except.ok (raw?.getD "", normalize_estado (raw?.getD ""), aseg))

/-! ### Concrete sample values used by the closed witnesses -/

/-- A fresh session with no cookie, no server-auth flag and no credentials. -/
def sampleState : SessionState :=
  { cookie_header := "", use_server_auth := false, user_id := none,
    password := none, view_state_value := none, is_authenticated := false }

/-- Parse oracles used by the concrete witnesses: the XML parse always fails
and the HTML parse finds nothing. -/
def wOracles : ParseOracles :=
  { xmlParse := fun _ => none, htmlViewState := fun _ => none,
    unescape := fun s => s, parseForms := fun _ => [],
    extractInfo := fun _ => (none, none) }

/-- A well-behaved search form: a text input `q_busqueda`, a hidden
`javax.faces.ViewState` input, and a `btnBuscar` submit button. -/
def wForm : Form :=
  { idAttr := some "FormIndex", nameAttr := none, action := some "/pages/index.xhtml",
    elems :=
      [{ tag := "input", nameAttr := some "q_busqueda", idAttr := none,
         typeAttr := some "text", valueAttr := none, text := "" },
       { tag := "input", nameAttr := some "javax.faces.ViewState", idAttr := none,
         typeAttr := some "hidden", valueAttr := some "stale", text := "" },
       { tag := "button", nameAttr := some "btnBuscar", idAttr := none,
         typeAttr := some "submit", valueAttr := some "Buscar", text := "" }] }

/-- A form whose only submit candidate is a button named
`javax.faces.ViewState`: the search field is a textarea (textareas are never
submit candidates) and there is no other button or input. -/
def c10Form : Form :=
  { idAttr := some "FormX", nameAttr := none, action := some "/pages/index.xhtml",
    elems :=
      [{ tag := "textarea", nameAttr := some "formx:busqueda", idAttr := none,
         typeAttr := none, valueAttr := none, text := "" },
       { tag := "button", nameAttr := some "javax.faces.ViewState", idAttr := none,
         typeAttr := none, valueAttr := none, text := "" }] }

/-! ### Helper lemmas -/

theorem string_empty_iff (s : String) : s = "" ↔ s.data = [] := by
  constructor
  · intro h
    rw [h]
  · intro h
    exact String.ext h

theorem pyIn_iff (n h : String) : pyIn n h = true ↔ n.data <:+: h.data := by
  simp [pyIn]

theorem ne_empty_of_pyIn (n h : String) (hn : n.data ≠ []) (hin : pyIn n h = true) :
    h ≠ "" := by
  intro he
  rw [pyIn_iff, he] at hin
  exact hn (List.eq_nil_of_infix_nil hin)

theorem pyLower_eq_empty (s : String) : pyLower s = "" ↔ s = "" := by
  rw [string_empty_iff, string_empty_iff]
  simp [pyLower]

/-! ### Status normalizer: claims C3 and C4 -/

/-- C4: the status normalizer is a pure function (it is a Lean function of its
argument alone, hence deterministic) satisfying the listed vectors:
`"Nuevo" ↦ "SIN DESISTIR"`, `"Desistido por el cliente" ↦ "DESISTIDO"`,
`"Reportado a la aseguradora" ↦ "REPORTADO"`, `"" ↦ "NO ENCONTRADO"`, and the
unrecognized literal `"Algo Raro"` passes through trimmed, whitespace-collapsed
and upper-cased as `"ALGO RARO"`. -/
theorem normalize_estado_vectors :
    normalize_estado "Nuevo" = "SIN DESISTIR" ∧
    normalize_estado "Desistido por el cliente" = "DESISTIDO" ∧
    normalize_estado "Reportado a la aseguradora" = "REPORTADO" ∧
    normalize_estado "" = "NO ENCONTRADO" ∧
    normalize_estado "Algo Raro" = "ALGO RARO" := by
  refine ⟨?_, ?_, ?_, ?_, ?_⟩ <;> decide

/-- C3 counterexample: the raw status `"Sin desistir"` contains `"desist"`,
so the earlier `"desist"` rule fires and `_normalize_estado` returns
`"DESISTIDO"`, not the canonical NOT_WITHDRAWN token `"SIN DESISTIR"` the
claim requires. -/
theorem normalize_estado_sin_desistir_counterexample :
    normalize_estado "Sin desistir" = "DESISTIDO" ∧
    normalize_estado "Sin desistir" ≠ "SIN DESISTIR" := by
  constructor <;> decide

/-- C3 (amended): a raw status whose lower-cased trimmed form contains a
negation-of-payment phrasing (`"no ha pagado"` or `"sin pagar"`) and contains
neither `"desist"` nor `"report"` normalizes to `"SIN DESISTIR"`; a raw
status containing `"sin desist"` instead falls under the earlier `"desist"`
rule and normalizes to `"DESISTIDO"`. -/
theorem normalize_estado_amended :
    (∀ raw : String,
      (pyIn "no ha pagado" (pyLower (pyStrip raw)) = true ∨
        pyIn "sin pagar" (pyLower (pyStrip raw)) = true) →
      pyIn "desist" (pyLower (pyStrip raw)) = false →
      pyIn "report" (pyLower (pyStrip raw)) = false →
      normalize_estado raw = "SIN DESISTIR") ∧
    (∀ raw : String, pyIn "sin desist" (pyLower (pyStrip raw)) = true →
      normalize_estado raw = "DESISTIDO") := by
  constructor
  · intro raw hpay hdes hrep
    have hne : ¬pyStrip raw = "" := by
      intro h
      rcases hpay with h1 | h1
      · exact ne_empty_of_pyIn _ _ (by decide) h1 ((pyLower_eq_empty _).mpr h)
      · exact ne_empty_of_pyIn _ _ (by decide) h1 ((pyLower_eq_empty _).mpr h)
    have hnuevo : ¬pyLower (pyStrip raw) = "nuevo" := by
      intro h
      rw [h] at hpay
      rcases hpay with h1 | h1 <;> exact absurd h1 (by decide)
    rw [normalize_estado, if_neg hne, if_neg hnuevo, if_neg (by simp [hdes]),
      if_neg (by simp [hrep]), if_pos (by rcases hpay with h1 | h1 <;> simp [h1])]
  · intro raw hsd
    have hdes : pyIn "desist" (pyLower (pyStrip raw)) = true := by
      rw [pyIn_iff] at hsd ⊢
      exact List.IsInfix.trans (by decide) hsd
    have hne : ¬pyStrip raw = "" := fun h =>
      ne_empty_of_pyIn _ _ (by decide) hsd ((pyLower_eq_empty _).mpr h)
    have hnuevo : ¬pyLower (pyStrip raw) = "nuevo" := by
      intro h
      rw [h] at hsd
      exact absurd hsd (by decide)
    rw [normalize_estado, if_neg hne, if_neg hnuevo, if_pos (by simp [hdes])]

/-- C3 witness: the amended theorem applied at the concrete raw status
`"El cliente no ha pagado"`. -/
theorem normalize_estado_amended_witness :
    normalize_estado "El cliente no ha pagado" = "SIN DESISTIR" :=
  normalize_estado_amended.1 "El cliente no ha pagado" (Or.inl (by decide))
    (by decide) (by decide)

/-! ### ViewState tracker: claim C7 -/

theorem viewStateFromXml_ne_empty (o : ParseOracles) (t : String) (v : String)
    (h : viewStateFromXml o t = some v) : v ≠ "" := by
  rw [viewStateFromXml] at h
  split at h
  · split at h
    · split at h
      · rename_i e heq
        have hp := List.find?_some heq
        simp only [Bool.and_eq_true, decide_eq_true_eq] at hp
        injection h with h2
        rw [← h2]
        exact hp.2
      · exact absurd h (by simp)
    · exact absurd h (by simp)
  · exact absurd h (by simp)

/-- C7: for every document and every previously tracked ViewState value, the
refresh operation (a total function, so it never raises; the XML-parse
exception of the source is the `none` case of the parse oracle) either leaves
the tracked value unchanged or replaces it with a non-empty token taken from
the document; and when the document yields no token through either the
partial-response path or the HTML input path (or only an empty one), the
previous value is left untouched. -/
theorem refresh_view_state_monotonic :
    (∀ (o : ParseOracles) (old : Option String) (t : String),
      refresh_view_state o old t = old ∨
        ∃ v, v ≠ "" ∧ refresh_view_state o old t = some v) ∧
    (∀ (o : ParseOracles) (old : Option String) (t : String),
      viewStateFromXml o t = none →
      (∀ v, o.htmlViewState t = some v → v = "") →
      refresh_view_state o old t = old) := by
  constructor
  · intro o old t
    cases hx : viewStateFromXml o t with
    | some v =>
      exact Or.inr ⟨v, viewStateFromXml_ne_empty o t v hx, by rw [refresh_view_state, hx]⟩
    | none =>
      cases hh : o.htmlViewState t with
      | none => exact Or.inl (by rw [refresh_view_state, hx, hh])
      | some v =>
        by_cases hv : v = ""
        · exact Or.inl (by simp [refresh_view_state, hx, hh, hv])
        · exact Or.inr ⟨v, hv, by simp [refresh_view_state, hx, hh, hv]⟩
  · intro o old t hx hh
    cases hh2 : o.htmlViewState t with
    | none => rw [refresh_view_state, hx, hh2]
    | some v => simp [refresh_view_state, hx, hh2, hh v hh2]

/-- C7 witness: on a document with no token, the tracked value
`some "VS"` is left untouched. -/
theorem refresh_view_state_monotonic_witness :
    refresh_view_state wOracles (some "VS") "<html></html>" = some "VS" :=
  refresh_view_state_monotonic.2 wOracles (some "VS") "<html></html>" (by decide)
    (fun v h => by cases h)

/-! ### Partial-response unwrapper: claim C8 -/

/-- C8: an input without the case-insensitive `"<partial-response"` marker is
returned unchanged, hence unwrapping is idempotent on already-unwrapped plain
HTML; and an input with the marker whose XML parse fails is also returned
unchanged instead of raising (the unwrapper is a total function). -/
theorem unwrap_plain_unchanged :
    (∀ (o : ParseOracles) (t : String),
      pyIn "<partial-response" (pyLower t) = false →
      unwrap_jsf_partial_response o t = t) ∧
    (∀ (o : ParseOracles) (t : String),
      pyIn "<partial-response" (pyLower t) = false →
      unwrap_jsf_partial_response o (unwrap_jsf_partial_response o t) =
        unwrap_jsf_partial_response o t) ∧
    (∀ (o : ParseOracles) (t : String),
      pyIn "<partial-response" (pyLower t) = true →
      o.xmlParse t = none →
      unwrap_jsf_partial_response o t = t) := by
  refine ⟨?_, ?_, ?_⟩
  · intro o t h
    rw [unwrap_jsf_partial_response, if_pos (by simp [h])]
  · intro o t h
    have h1 : unwrap_jsf_partial_response o t = t := by
      rw [unwrap_jsf_partial_response, if_pos (by simp [h])]
    rw [h1, h1]
  · intro o t h hx
    rw [unwrap_jsf_partial_response, if_neg (by simp [h]), hx]

/-- C8 witness: plain HTML is returned unchanged, and a marked document whose
XML parse fails (oracle `wOracles`) is returned unchanged. -/
theorem unwrap_plain_unchanged_witness :
    unwrap_jsf_partial_response wOracles "<html>hola</html>" = "<html>hola</html>" ∧
    unwrap_jsf_partial_response wOracles "<Partial-Response x>" = "<Partial-Response x>" :=
  ⟨unwrap_plain_unchanged.1 wOracles "<html>hola</html>" (by decide),
    unwrap_plain_unchanged.2.2 wOracles "<Partial-Response x>" (by decide) rfl⟩

/-! ### De-duplication and batch loop: claims C1, C2 -/

theorem dedupeSeen_mem (x : String) : ∀ (l seen : List String),
    x ∈ dedupeSeen seen l ↔ x ∈ l ∧ x ∉ seen := by
  intro l
  induction l with
  | nil => intro seen; simp [dedupeSeen]
  | cons r rs ih =>
    intro seen
    by_cases hr : r ∈ seen
    · rw [dedupeSeen, if_pos hr, ih]
      constructor
      · rintro ⟨hx, hxs⟩
        exact ⟨List.mem_cons_of_mem r hx, hxs⟩
      · rintro ⟨hx, hxs⟩
        rcases List.mem_cons.mp hx with rfl | hx2
        · exact absurd hr hxs
        · exact ⟨hx2, hxs⟩
    · rw [dedupeSeen, if_neg hr]
      constructor
      · intro hm
        rcases List.mem_cons.mp hm with rfl | hm2
        · exact ⟨List.mem_cons_self x rs, hr⟩
        · obtain ⟨hx, hxs⟩ := (ih (r :: seen)).mp hm2
          exact ⟨List.mem_cons_of_mem r hx,
            fun hmem => hxs (List.mem_cons_of_mem r hmem)⟩
      · rintro ⟨hx, hxs⟩
        rcases List.mem_cons.mp hx with rfl | hx2
        · exact List.mem_cons_self x _
        · by_cases hxr : x = r
          · subst hxr
            exact List.mem_cons_self x _
          · refine List.mem_cons_of_mem r ((ih (r :: seen)).mpr ⟨hx2, ?_⟩)
            intro hmem
            rcases List.mem_cons.mp hmem with h1 | h1
            · exact hxr h1
            · exact hxs h1

theorem dedupeSeen_nodup : ∀ (l seen : List String), (dedupeSeen seen l).Nodup := by
  intro l
  induction l with
  | nil => intro seen; simp [dedupeSeen]
  | cons r rs ih =>
    intro seen
    by_cases hr : r ∈ seen
    · rw [dedupeSeen, if_pos hr]
      exact ih seen
    · rw [dedupeSeen, if_neg hr]
      refine List.nodup_cons.mpr ⟨fun hm => ?_, ih (r :: seen)⟩
      exact ((dedupeSeen_mem r rs (r :: seen)).mp hm).2 (List.mem_cons_self r seen)

theorem dedupeSeen_sublist : ∀ (l seen : List String), List.Sublist (dedupeSeen seen l) l := by
  intro l
  induction l with
  | nil => intro seen; simp [dedupeSeen]
  | cons r rs ih =>
    intro seen
    by_cases hr : r ∈ seen
    · rw [dedupeSeen, if_pos hr]
      exact (ih seen).cons r
    · rw [dedupeSeen, if_neg hr]
      exact (ih (r :: seen)).cons₂ r

theorem filter_not_mem_cons (r : String) (seen : List String) : ∀ rs : List String,
    rs.filter (fun x => x ∉ r :: seen) =
      (rs.filter (fun x => x ∉ seen)).filter (fun y => y ≠ r) := by
  intro rs
  induction rs with
  | nil => rfl
  | cons a l ih =>
    by_cases h1 : a = r
    · subst h1
      rw [List.filter_cons_of_neg (by simp), ih]
      by_cases h2 : a ∈ seen
      · rw [List.filter_cons_of_neg (by simp [h2])]
      · rw [List.filter_cons_of_pos (by simp [h2]), List.filter_cons_of_neg (by simp)]
    · by_cases h2 : a ∈ seen
      · rw [List.filter_cons_of_neg (by simp [h1, h2]), ih,
          List.filter_cons_of_neg (by simp [h2])]
      · rw [List.filter_cons_of_pos (by simp [h1, h2]), ih,
          List.filter_cons_of_pos (by simp [h2]), List.filter_cons_of_pos (by simp [h1])]

theorem dedupeSeen_eq_dedupFirstSeen : ∀ (l seen : List String),
    dedupeSeen seen l = dedupFirstSeen (l.filter (fun x => x ∉ seen)) := by
  intro l
  induction l with
  | nil => intro seen; simp [dedupeSeen, dedupFirstSeen]
  | cons r rs ih =>
    intro seen
    by_cases hr : r ∈ seen
    · rw [dedupeSeen, if_pos hr, List.filter_cons_of_neg (by simp [hr]), ih]
    · rw [dedupeSeen, if_neg hr, List.filter_cons_of_pos (by simp [hr])]
      simp only [dedupFirstSeen]
      rw [ih, filter_not_mem_cons]

theorem runBatch_length (q : Query) (ts : String) :
    ∀ (rads : List String) (st : SessionState),
      ((runBatch q ts st rads).2).length = rads.length := by
  intro rads
  induction rads with
  | nil => intro st; rfl
  | cons r rs ih =>
    intro st
    rw [runBatch]
    cases hq : q st r with
    | mk st1 out =>
      cases out with
      | ok t => simp [ih st1]
      | error e => simp [ih st1]

theorem runBatch_map_radicado (q : Query) (ts : String) :
    ∀ (rads : List String) (st : SessionState),
      ((runBatch q ts st rads).2).map BolivarResult.radicado = rads := by
  intro rads
  induction rads with
  | nil => intro st; rfl
  | cons r rs ih =>
    intro st
    rw [runBatch]
    cases hq : q st r with
    | mk st1 out =>
      cases out with
      | ok t => simp [ih st1, okResult]
      | error e => simp [ih st1, errorResult]

theorem runBatch_failed_inv (q : Query) (ts : String) :
    ∀ (rads : List String) (st : SessionState) (res : BolivarResult),
      res ∈ (runBatch q ts st rads).2 → res.ok = false →
      res.estado_raw = none ∧ res.estado_normalizado = some "NO ENCONTRADO" ∧
        res.error ≠ none := by
  intro rads
  induction rads with
  | nil => intro st res hm; simp [runBatch] at hm
  | cons r rs ih =>
    intro st res hm hok
    rw [runBatch] at hm
    cases hq : q st r with
    | mk st1 out =>
      rw [hq] at hm
      cases out with
      | ok t =>
        simp only [List.mem_cons] at hm
        rcases hm with rfl | hm
        · exact absurd hok (by simp [okResult])
        · exact ih st1 res hm hok
      | error e =>
        simp only [List.mem_cons] at hm
        rcases hm with rfl | hm
        · exact ⟨rfl, rfl, by simp [errorResult]⟩
        · exact ih st1 res hm hok

/-- C2: the radicado normalizer produces the de-duplicated list of trimmed
non-empty identifiers in first-seen order — it is equal to the canonical
first-occurrence de-duplication `dedupFirstSeen` of the trimmed non-empty
parts, and in particular duplicate-free, containing exactly the distinct
trimmed non-empty inputs, and an order-preserving sublist of them — the
batch loop produces exactly one result per normalized identifier in that
order, and the endpoint's returned count is the length of the result list
over the de-duplicated identifiers. -/
theorem batch_dedup_spec :
    (∀ v : RadicadosInput,
      normalize_radicados v = dedupFirstSeen (rawParts v) ∧
      (normalize_radicados v).Nodup ∧
      (∀ x, x ∈ normalize_radicados v ↔ x ∈ rawParts v) ∧
      List.Sublist (normalize_radicados v) (rawParts v)) ∧
    (∀ (q : Query) (ts : String) (st : SessionState) (rads : List String),
      ((runBatch q ts st rads).2).map BolivarResult.radicado = rads ∧
      ((runBatch q ts st rads).2).length = rads.length) ∧
    (∀ (mk : Except String SessionState) (q : Query) (fa ts c : String)
        (r : RadicadosInput) (flag : Bool) (st : SessionState),
      mk = Except.ok st →
      (normalize_cookie_header c = "" && !flag) = false →
      normalize_radicados r ≠ [] →
      bolivar_radicados mk q fa ts c r flag =
        ApiResponse.ok fa ((runBatch q ts st (normalize_radicados r)).2).length
          ((runBatch q ts st (normalize_radicados r)).2)) := by
  refine ⟨?_, ?_, ?_⟩
  · intro v
    refine ⟨?_, dedupeSeen_nodup (rawParts v) [],
      fun x => by rw [normalize_radicados, dedupeSeen_mem]; simp,
      dedupeSeen_sublist (rawParts v) []⟩
    rw [normalize_radicados, dedupeSeen_eq_dedupFirstSeen,
      List.filter_eq_self.mpr (fun a _ => by simp)]
  · intro q ts st rads
    exact ⟨runBatch_map_radicado q ts rads st, runBatch_length q ts rads st⟩
  · intro mk q fa ts c r flag st hmk hc hr
    rw [bolivar_radicados.eq_def, if_neg (by simp [hc]), if_neg (by simp [hr]), hmk]

/-- C2 witness: a concrete batch over the raw input `"A-1, B-2; A-1"` with an
always-succeeding query, exercising the endpoint conjunct. -/
theorem batch_dedup_spec_witness :
    bolivar_radicados (Except.ok sampleState)
        (fun st _ => (st, Except.ok ("Nuevo", "SIN DESISTIR", none))) "f" "t"
        "c=1" (RadicadosInput.str "A-1, B-2; A-1") false =
      ApiResponse.ok "f"
        ((runBatch (fun st _ => (st, Except.ok ("Nuevo", "SIN DESISTIR", none))) "t"
            sampleState (normalize_radicados (RadicadosInput.str "A-1, B-2; A-1"))).2).length
        ((runBatch (fun st _ => (st, Except.ok ("Nuevo", "SIN DESISTIR", none))) "t"
            sampleState (normalize_radicados (RadicadosInput.str "A-1, B-2; A-1"))).2) :=
  batch_dedup_spec.2.2 _ _ "f" "t" "c=1" (RadicadosInput.str "A-1, B-2; A-1") false
    sampleState rfl (by decide) (by decide)

/-- C1: a query that raises on an identifier yields exactly the
`ok=false / estado_raw=None / estado_normalizado="NO ENCONTRADO" /
error=str(exc)` record while the remaining identifiers are still processed
(the batch continues from the post-exception session state); every result of
every batch with `ok=false` has a null `estado_raw`, the `"NO ENCONTRADO"`
normalized status and a non-null error; and a batch always produces as many
results as identifiers. Both `except` arms of the source (the
`NotImplementedError` arm and the generic `Exception` arm) build the same
record, so a single error path models them. -/
theorem batch_error_isolation :
    (∀ (q : Query) (ts : String) (st st1 : SessionState) (r e : String)
        (rs : List String),
      q st r = (st1, Except.error e) →
      (runBatch q ts st (r :: rs)).2 =
        errorResult r ts e :: (runBatch q ts st1 rs).2) ∧
    (∀ (q : Query) (ts : String) (st : SessionState) (rads : List String),
      ((runBatch q ts st rads).2).length = rads.length) ∧
    (∀ (q : Query) (ts : String) (st : SessionState) (rads : List String)
        (res : BolivarResult),
      res ∈ (runBatch q ts st rads).2 → res.ok = false →
      res.estado_raw = none ∧ res.estado_normalizado = some "NO ENCONTRADO" ∧
        res.error ≠ none) := by
  refine ⟨?_, ?_, ?_⟩
  · intro q ts st st1 r e rs hq
    rw [runBatch, hq]
  · intro q ts st rads
    exact runBatch_length q ts rads st
  · intro q ts st rads res hm hok
    exact runBatch_failed_inv q ts rads st res hm hok

/-- C1 witness: a query raising `"boom"` on every identifier: the batch over
`["A", "B"]` starts with the failure record for `"A"` and still processes
`"B"`. -/
theorem batch_error_isolation_witness :
    (runBatch (fun st _ => (st, Except.error "boom")) "t" sampleState ["A", "B"]).2 =
      errorResult "A" "t" "boom" ::
        (runBatch (fun st _ => (st, Except.error "boom")) "t" sampleState ["B"]).2 :=
  batch_error_isolation.1 (fun st _ => (st, Except.error "boom")) "t" sampleState
    sampleState "A" "boom" ["B"] rfl

/-! ### Missing-auth rejection: claim C9 -/

/-- C9: when the normalized cookie header is empty and the server-auth flag
is off, the endpoint answers with the HTTP 400 rejection (a `badRequest`
carries no results) before constructing a session or running any query; and
a session in that configuration raises the configuration `ValueError` from
`ensure_authenticated` with an empty network-action trace, instead of
attempting an unauthenticated request. -/
theorem no_auth_rejected :
    (∀ (mk : Except String SessionState) (q : Query) (fa ts raw : String)
        (rads : RadicadosInput),
      normalize_cookie_header raw = "" →
      bolivar_radicados mk q fa ts raw rads false =
        ApiResponse.badRequest
          "Falta 'cookie' o 'use_server_auth=true'. Este sistema solo consulta; no ejecuta acciones críticas.") ∧
    (∀ (auth : Except String (Option String)) (st : SessionState),
      st.is_authenticated = false → st.cookie_header = "" →
      st.use_server_auth = false →
      ensure_authenticated auth st =
        (Except.error "No hay cookie de sesión. Envía 'cookie' o activa 'use_server_auth'.",
          [])) := by
  constructor
  · intro mk q fa ts raw rads hraw
    rw [bolivar_radicados.eq_def, if_pos (by simp [hraw])]
  · intro auth st h1 h2 h3
    rw [ensure_authenticated.eq_def, if_neg (by simp [h1]), if_neg (by simp [h2]),
      if_pos (by simp [h3])]

/-- C9 witness: the theorem applied to an empty cookie string and the sample
unauthenticated session state. -/
theorem no_auth_rejected_witness :
    bolivar_radicados (Except.ok sampleState)
        (fun st _ => (st, Except.error "unreached")) "f" "t" "" RadicadosInput.null
        false =
      ApiResponse.badRequest
        "Falta 'cookie' o 'use_server_auth=true'. Este sistema solo consulta; no ejecuta acciones críticas." ∧
    ensure_authenticated (Except.ok none) sampleState =
      (Except.error "No hay cookie de sesión. Envía 'cookie' o activa 'use_server_auth'.",
        []) :=
  ⟨no_auth_rejected.1 (Except.ok sampleState)
      (fun st _ => (st, Except.error "unreached")) "f" "t" "" RadicadosInput.null rfl,
    no_auth_rejected.2 (Except.ok none) sampleState rfl rfl rfl⟩

/-! ### Empty-identifier short circuit: claim C5 -/

/-- C5: an identifier that is empty after trimming makes
`get_info_for_radicado` return the canonical not-found triple
`("NO ENCONTRADO", "NO ENCONTRADO", None)` with an unchanged session state
and an empty action trace — no authentication step and no HTTP request. -/
theorem empty_radicado_short_circuit (po : ParseOracles) (no : NetOracles)
    (st : SessionState) (r : String) (h : pyStrip r = "") :
    get_info_for_radicado po no st r =
      (st, [], Except.ok ("NO ENCONTRADO", "NO ENCONTRADO", none)) := by
  rw [get_info_for_radicado, if_pos h]

/-- C5 witness: the theorem applied to the whitespace-only identifier
`"  \t "` with the concrete oracles. -/
theorem empty_radicado_short_circuit_witness :
    get_info_for_radicado wOracles
        ⟨Except.ok none, Except.error "net", Except.error "net"⟩ sampleState "  \t " =
      (sampleState, [], Except.ok ("NO ENCONTRADO", "NO ENCONTRADO", none)) :=
  empty_radicado_short_circuit wOracles
    ⟨Except.ok none, Except.error "net", Except.error "net"⟩ sampleState "  \t "
    (by decide)

/-! ### Form resolution: claim C6 -/

theorem head?_isSome_of_ne_nil {α : Type} (l : List α) (h : l ≠ []) :
    l.head?.isSome = true := by
  cases l with
  | nil => exact absurd rfl h
  | cons a l => rfl

/-- C6: the source form resolver coincides with the six-step priority chain
of the claim (search-field forms first, preferring exact `FormIndex`, else a
landing-page action, else the first search-field form; otherwise the first
form with a state-token input, else the first form), and on any document
with at least one form it selects a form. It is a pure function of the
parsed form list, so identical markup always yields the same choice. -/
theorem find_search_form_spec_correct :
    (∀ forms : List Form, find_search_form forms = findSearchFormSpec forms) ∧
    (∀ forms : List Form, forms ≠ [] → (find_search_form forms).isSome = true) := by
  have hmain : ∀ forms : List Form, find_search_form forms = findSearchFormSpec forms := by
    intro forms
    by_cases h0 : forms = []
    · subst h0
      rfl
    rw [find_search_form.eq_def, findSearchFormSpec.eq_def, if_neg h0,
      ← List.filter_head? isFormIndexForm, ← List.filter_head? actionEndsIndex,
      ← List.filter_head? hasViewStateInput]
    by_cases h1 : forms.filter hasSearchField = []
    · rw [if_neg (fun hc => hc h1), if_neg (fun hc => hc h1)]
      cases h2 : forms.filter hasViewStateInput with
      | nil => simp [h2]
      | cons f fs => simp [h2]
    · rw [if_pos h1, if_pos h1]
      cases h2 : (forms.filter hasSearchField).filter isFormIndexForm with
      | cons f fs => simp [h2]
      | nil =>
        cases h3 : (forms.filter hasSearchField).filter actionEndsIndex with
        | cons f fs => simp [h2, h3]
        | nil => simp [h2, h3]
  refine ⟨hmain, fun forms h0 => ?_⟩
  rw [hmain forms, findSearchFormSpec.eq_def]
  by_cases h1 : forms.filter hasSearchField = []
  · rw [if_neg (fun hc => hc h1)]
    by_cases h2 : forms.filter hasViewStateInput = []
    · rw [if_neg (fun hc => hc h2)]
      exact head?_isSome_of_ne_nil forms h0
    · rw [if_pos h2]
      exact head?_isSome_of_ne_nil _ h2
  · rw [if_pos h1]
    by_cases h2 : (forms.filter hasSearchField).filter isFormIndexForm = []
    · rw [if_neg (fun hc => hc h2)]
      by_cases h3 : (forms.filter hasSearchField).filter actionEndsIndex = []
      · rw [if_neg (fun hc => hc h3)]
        exact head?_isSome_of_ne_nil _ h1
      · rw [if_pos h3]
        exact head?_isSome_of_ne_nil _ h3
    · rw [if_pos h2]
      exact head?_isSome_of_ne_nil _ h2

/-- C6 witness: on a single-form document the resolver selects a form. -/
theorem find_search_form_spec_correct_witness :
    (find_search_form [wForm]).isSome = true :=
  find_search_form_spec_correct.2 [wForm] (by decide)

/-! ### Payload construction: claim C10 -/

/-- C10 counterexample: on `c10Form` the sole submit candidate is the button
named `javax.faces.ViewState`, so the final `payload[submit_name] =
submit_name` assignment overwrites the state-token entry: the submitted
ViewState value is the string `"javax.faces.ViewState"`, not the session's
tracked token `"VS123"`. -/
theorem payload_viewstate_counterexample :
    submitName c10Form = some "javax.faces.ViewState" ∧
    payloadGet "javax.faces.ViewState" (buildPayload c10Form "R1" "VS123") =
      some "javax.faces.ViewState" ∧
    payloadGet "javax.faces.ViewState" (buildPayload c10Form "R1" "VS123") ≠
      some "VS123" := by
  refine ⟨?_, ?_, ?_⟩ <;> decide

/-- C10 (amended): the form's own ViewState hidden input is never replayed
among the hidden fields; provided the chosen submit control is not itself
named `javax.faces.ViewState`, the payload maps the state-token field to the
session's tracked token value; and whenever a submit control is chosen, the
payload maps that control's name to the name itself. -/
theorem payload_viewstate_amended :
    (∀ (form : Form) (p : String × String), p ∈ hiddenAssigns form →
      p.1 ≠ "javax.faces.ViewState") ∧
    (∀ (form : Form) (sol vs : String),
      submitName form ≠ some "javax.faces.ViewState" →
      payloadGet "javax.faces.ViewState" (buildPayload form sol vs) = some vs) ∧
    (∀ (form : Form) (sol vs n : String), submitName form = some n →
      payloadGet n (buildPayload form sol vs) = some n) := by
  refine ⟨?_, ?_, ?_⟩
  · intro form p hp
    rw [hiddenAssigns] at hp
    obtain ⟨e, he, rfl⟩ := List.mem_map.mp hp
    have hcond := (List.mem_filter.mp he).2
    simp only [Bool.and_eq_true, decide_eq_true_eq] at hcond
    exact hcond.1.2
  · intro form sol vs hsn
    cases hs : submitName form with
    | none => simp [buildPayload, payloadGet, hs]
    | some n =>
      have hn : ¬n = "javax.faces.ViewState" := fun h => hsn (by rw [hs, h])
      simp [buildPayload, payloadGet, hs, hn]
  · intro form sol vs n hs
    simp [buildPayload, payloadGet, hs]

/-- C10 witness: on the well-behaved form `wForm` (submit control
`btnBuscar`) the payload carries the tracked token `"VS9"` under the
state-token key and maps the submit control to its own name. -/
theorem payload_viewstate_amended_witness :
    payloadGet "javax.faces.ViewState" (buildPayload wForm "R1" "VS9") = some "VS9" ∧
    payloadGet "btnBuscar" (buildPayload wForm "R1" "VS9") = some "btnBuscar" :=
  ⟨payload_viewstate_amended.2.1 wForm "R1" "VS9" (by decide),
    payload_viewstate_amended.2.2 wForm "R1" "VS9" "btnBuscar" (by decide)⟩

end Scrap
